import Mathlib

/-!
Shallow embedding of the Retrieval-Augmented Commentary Engine of the
FinStream-AI repository, together with proofs of the specified properties.

The embedding covers:
* the DTOs of `CommentaryDto` (`SecFilingChunk`, `TickerCommentary`,
  `PortfolioCommentaryResponse`);
* the entities `UserPortfolio`, `PortfolioHolding`, `DimTicker`;
* the orchestrator `PortfolioCommentaryService` (`generateCommentary`,
  `generateForTicker`, `formatChunksAsContext`, `humanReadableItem`);
* the retriever `SecFilingRetrieverService` (`retrieve` and the two
  similarity-search SQL statements, embedded as filter / sort / limit over a
  table of rows, with the pgvector cosine-distance operator abstracted as a
  distance function).

External collaborators (repositories, the embedding model, the language
model) are passed in as an explicit environment; fallible remote calls are
modelled with `Except String`.  Remote calls performed by the orchestrator
are additionally recorded in an effect trace so that we can state that a
given run makes no retrieval or generation call.
-/

namespace FinStream

/-- Embeds `CommentaryDto.SecFilingChunk`: a retrieved SEC filing chunk as
returned by the vector database.  `similarity` is the `double` computed by
the SQL query, modelled as a rational. -/
structure SecFilingChunk where
  ticker : String
  filingYear : Int
  filingType : String
  filingPeriod : String
  itemCode : String
  chunkIndex : Int
  chunkText : String
  similarity : ℚ
deriving Repr, DecidableEq

/-- Embeds `CommentaryDto.TickerCommentary`.  Every field of the Java class
is a nullable reference type set through a builder, so each field is an
`Option` that defaults to `none` (null). -/
structure TickerCommentary where
  tickerId : Option String := none
  companyName : Option String := none
  sector : Option String := none
  commentary : Option String := none
  filingYear : Option Int := none
  chunksUsed : Option Nat := none
deriving Repr, DecidableEq

/-- Embeds `CommentaryDto.PortfolioCommentaryResponse`.  The portfolio id is
modelled as a `Nat` standing in for the UUID and the `LocalDateTime`
timestamp as an `Option Nat` (null until the builder sets it). -/
structure PortfolioCommentaryResponse where
  portfolioId : Nat
  portfolioName : String
  commentaries : List TickerCommentary
  generatedAt : Option Nat := none
deriving Repr, DecidableEq

/-- Embeds the `UserPortfolio` entity (the fields the commentary service
reads: `portfolioId`, `firebaseUid`, `portfolioName`). -/
structure UserPortfolio where
  portfolioId : Nat
  firebaseUid : String
  portfolioName : String
deriving Repr, DecidableEq

/-- Embeds a `PortfolioHolding` row as seen by the orchestrator, which only
reads `holding.getId().getTickerId()`. -/
structure PortfolioHolding where
  tickerId : String
deriving Repr, DecidableEq

/-- Embeds the `DimTicker` entity fields read by `generateForTicker`;
`companyName` and `sector` are nullable columns. -/
structure DimTicker where
  companyName : Option String := none
  sector : Option String := none
deriving Repr, DecidableEq

/-- A remote call made by the per-ticker pipeline, recorded for the effect
trace: one retrieval (embedding plus similarity search) or one
language-model generation, tagged with the ticker it was made for. -/
inductive Effect where
  | retrieveCall (ticker : String)
  | generateCall (ticker : String)
deriving Repr, DecidableEq

/-- The external collaborators of `PortfolioCommentaryService`, passed as an
explicit environment: the portfolio repository table, the holding and
ticker repositories, the retriever (which may throw, covering both
embedding and similarity-search failures), the LangChain4j AI service
(which may throw), and the clock used for `LocalDateTime.now()`. -/
structure Env where
  portfolios : List UserPortfolio
  findHoldings : Nat → List PortfolioHolding
  findTicker : String → Option DimTicker
  retrieve : String → String → Except String (List SecFilingChunk)
  generate : String → String → String → String → Except String String
  now : Nat

/-- Embeds `PortfolioCommentaryService.ANALYSIS_QUERY`, the fixed broad
analysis query embedded and sent to the vector database. -/
def ANALYSIS_QUERY : String :=
  "financial performance revenue growth profitability risk factors " ++
  "legal proceedings regulatory concerns market risk interest rate " ++
  "foreign exchange commodity exposure management discussion analysis"

/-- Embeds `UserPortfolioRepository.findByPortfolioIdAndFirebaseUid`: the
derived Spring Data query returning the portfolio row matching both the
portfolio id and the owner uid, if any. -/
def findByPortfolioIdAndFirebaseUid (table : List UserPortfolio)
    (portfolioId : Nat) (firebaseUid : String) : Option UserPortfolio :=
  table.find? fun p => p.portfolioId == portfolioId && p.firebaseUid == firebaseUid

/-- Embeds `PortfolioCommentaryService.humanReadableItem`: the static switch
mapping internal SEC item codes to human-readable labels; an unknown code
falls through to itself. -/
def humanReadableItem (itemCode : String) : String :=
  if itemCode == "item_1a" then "Item 1A: Risk Factors"
  else if itemCode == "item_3" then "Item 3: Legal Proceedings"
  else if itemCode == "item_7" then "Item 7: MD&A"
  else if itemCode == "item_7a" then "Item 7A: Market Risk Disclosures"
  else itemCode

/-- The provenance header prepended to each chunk by
`formatChunksAsContext`, reproducing the Java format string
`"[Source: %s %d %s â€” %s]\n"` byte for byte (the source file stores the
em dash mojibake-encoded as the three characters U+00E2 U+20AC U+201D). -/
def chunkHeader (c : SecFilingChunk) : String :=
  "[Source: " ++ c.filingType ++ " " ++ toString c.filingYear ++ " " ++
    c.filingPeriod ++ " â€” " ++ humanReadableItem c.itemCode ++ "]\n"

/-- Embeds `PortfolioCommentaryService.formatChunksAsContext`: the loop that
appends each chunk's provenance header and text, inserting the separator
after every chunk except the last. -/
def formatChunksAsContext : List SecFilingChunk → String
  | [] => ""
  | [c] => chunkHeader c ++ c.chunkText
  | c :: c2 :: rest =>
      chunkHeader c ++ c.chunkText ++ "\n\n---\n\n" ++
        formatChunksAsContext (c2 :: rest)

/-- Embeds the reduction step of
`stream.max(Map.Entry.comparingByValue())` over the year-to-count grouping:
walk the candidate years keeping the one with the larger count, the
incumbent winning ties (Java's `BinaryOperator.maxBy` keeps the
accumulator when the comparison is not strictly greater). -/
def maxCountElem (ys : List Int) : Int → List Int → Int
  | acc, [] => acc
  | acc, z :: rest =>
      if ys.count acc < ys.count z then maxCountElem ys z rest
      else maxCountElem ys acc rest

/-- Embeds the dominant-filing-year computation of `generateForTicker`:
group the chunks' filing years, take a year with maximal count, default 0
for an empty stream.  The iteration order over the grouping HashMap is an
artifact in the Java code, so ties are settled here by one fixed order;
every theorem below only relies on the unique-maximum case, where the
order is irrelevant. -/
def dominantFilingYear (chunks : List SecFilingChunk) : Int :=
  let ys := chunks.map (·.filingYear)
  match ys.dedup with
  | [] => 0
  | z :: rest => maxCountElem ys z rest

/-- Embeds `PortfolioCommentaryService.generateForTicker`: look up company
metadata with fallbacks, retrieve chunks, short-circuit to the no-data
commentary on an empty result, otherwise assemble the context, compute the
dominant filing year, call the language model and build the commentary.
Returns the thrown exception as `Except.error` together with the trace of
remote calls made before the exception. -/
def generateForTicker (env : Env) (tickerId : String) :
    Except String TickerCommentary × List Effect :=
  let companyName :=
    match env.findTicker tickerId with
    | some dim => dim.companyName.getD tickerId
    | none => tickerId
  let sector :=
    match env.findTicker tickerId with
    | some dim => dim.sector.getD "Unknown"
    | none => "Unknown"
  match env.retrieve tickerId ANALYSIS_QUERY with
  | .error e => (.error e, [.retrieveCall tickerId])
  | .ok chunks =>
    if chunks.isEmpty then
      (.ok { tickerId := some tickerId, companyName := some companyName,
             sector := some sector,
             commentary := some "No SEC filing data available for this ticker.",
             filingYear := none, chunksUsed := some 0 },
       [.retrieveCall tickerId])
    else
      let context := formatChunksAsContext chunks
      let filingYear := dominantFilingYear chunks
      match env.generate tickerId companyName sector context with
      | .error e => (.error e, [.retrieveCall tickerId, .generateCall tickerId])
      | .ok text =>
          (.ok { tickerId := some tickerId, companyName := some companyName,
                 sector := some sector, commentary := some text,
                 filingYear := some filingYear,
                 chunksUsed := some chunks.length },
           [.retrieveCall tickerId, .generateCall tickerId])

/-- Embeds the per-holding try/catch of `generateCommentary`: a successful
pipeline result is used as is, any exception is converted into the
placeholder commentary carrying only the ticker id, the error message and
`chunksUsed = 0`. -/
def commentaryForHolding (env : Env) (tickerId : String) :
    TickerCommentary × List Effect :=
  (match (generateForTicker env tickerId).1 with
   | .ok c => c
   | .error msg =>
       { tickerId := some tickerId, companyName := none, sector := none,
         commentary := some ("Commentary could not be generated: " ++ msg),
         filingYear := none, chunksUsed := some 0 },
   (generateForTicker env tickerId).2)

/-- Embeds `PortfolioCommentaryService.generateCommentary`: verify ownership
(throwing `ResourceNotFoundException("Portfolio not found")` when the
combined id/uid lookup is empty), return an empty response for a portfolio
without holdings, otherwise run the per-ticker pipeline for every holding
in order.  The second component is the concatenated trace of remote calls. -/
def generateCommentary (env : Env) (portfolioId : Nat) (firebaseUid : String) :
    Except String (PortfolioCommentaryResponse × List Effect) :=
  match findByPortfolioIdAndFirebaseUid env.portfolios portfolioId firebaseUid with
  | none => .error "Portfolio not found"
  | some portfolio =>
    let holdings := env.findHoldings portfolioId
    if holdings.isEmpty then
      .ok ({ portfolioId := portfolioId,
             portfolioName := portfolio.portfolioName,
             commentaries := [],
             generatedAt := some env.now }, [])
    else
      let results := holdings.map fun h => commentaryForHolding env h.tickerId
      .ok ({ portfolioId := portfolioId,
             portfolioName := portfolio.portfolioName,
             commentaries := results.map Prod.fst,
             generatedAt := some env.now },
           (results.map Prod.snd).flatten)

/-- Embeds the effect of `@JsonInclude(JsonInclude.Include.NON_NULL)` on
`TickerCommentary`: the set of field names present in the serialized JSON
object, i.e. exactly the non-null fields. -/
def serializedKeys (tc : TickerCommentary) : List String :=
  (if tc.tickerId.isSome then ["tickerId"] else []) ++
  (if tc.companyName.isSome then ["companyName"] else []) ++
  (if tc.sector.isSome then ["sector"] else []) ++
  (if tc.commentary.isSome then ["commentary"] else []) ++
  (if tc.filingYear.isSome then ["filingYear"] else []) ++
  (if tc.chunksUsed.isSome then ["chunksUsed"] else [])

/-- A row of the `sec_filing_chunks` table as selected by the similarity
search SQL: the chunk columns plus the stored embedding vector. -/
structure ChunkRow where
  ticker : String
  filingYear : Int
  filingType : String
  filingPeriod : String
  itemCode : String
  chunkIndex : Int
  chunkText : String
  embedding : List ℚ
deriving Repr, DecidableEq

/-- The environment of `SecFilingRetrieverService`: the embedding model, the
pgvector cosine-distance operator `<=>` abstracted as a distance function
on vectors, the chunk table, and the configured
`commentary.retrieval.max-chunks` limit. -/
structure RetrieverEnv where
  embed : String → List ℚ
  dist : List ℚ → List ℚ → ℚ
  table : List ChunkRow
  maxChunks : Nat

/-- The default of the `commentary.retrieval.max-chunks` property as
declared by the `@Value` annotation on the retriever constructor. -/
def defaultMaxChunks : Nat := 15

/-- The row mapper of the similarity-search queries: each selected row is
turned into a `SecFilingChunk`, with the `similarity` column computed by
the SQL as `1 - (embedding <=> query)`. -/
def rowToChunk (dist : List ℚ → List ℚ → ℚ) (qvec : List ℚ)
    (r : ChunkRow) : SecFilingChunk :=
  { ticker := r.ticker, filingYear := r.filingYear, filingType := r.filingType,
    filingPeriod := r.filingPeriod, itemCode := r.itemCode,
    chunkIndex := r.chunkIndex, chunkText := r.chunkText,
    similarity := 1 - dist r.embedding qvec }

/-- The `ORDER BY embedding <=> ?::vector LIMIT ?` tail shared by both
similarity-search SQL statements: sort the rows that passed the `WHERE`
clause by ascending distance to the query vector, keep the first `limit`,
and map each row through the row mapper. -/
def searchSorted (dist : List ℚ → List ℚ → ℚ) (qvec : List ℚ)
    (rows : List ChunkRow) (limit : Nat) : List SecFilingChunk :=
  ((rows.insertionSort
      fun a b => dist a.embedding qvec ≤ dist b.embedding qvec).take limit).map
    (rowToChunk dist qvec)

/-- Embeds `SIMILARITY_SEARCH_SQL`: `WHERE ticker = ?` as a filter, then
the shared order/limit/select tail. -/
def similaritySearch (dist : List ℚ → List ℚ → ℚ) (table : List ChunkRow)
    (qvec : List ℚ) (ticker : String) (limit : Nat) : List SecFilingChunk :=
  searchSorted dist qvec (table.filter fun r => r.ticker == ticker) limit

/-- Embeds `SIMILARITY_SEARCH_BY_YEAR_SQL`: as `similaritySearch` with the
additional `AND filing_year = ?` conjunct in the `WHERE` clause. -/
def similaritySearchByYear (dist : List ℚ → List ℚ → ℚ) (table : List ChunkRow)
    (qvec : List ℚ) (ticker : String) (filingYear : Int) (limit : Nat) :
    List SecFilingChunk :=
  searchSorted dist qvec
    (table.filter fun r => r.ticker == ticker && r.filingYear == filingYear) limit

/-- Embeds `SecFilingRetrieverService.retrieve(ticker, query, filingYear)`:
embed the query, then run the year-filtered similarity search when a
filing year was supplied and the plain one otherwise.  The two-argument
overload of the Java service is `retrieverRun env ticker query none`. -/
def retrieverRun (env : RetrieverEnv) (ticker query : String)
    (filingYear : Option Int) : List SecFilingChunk :=
  let qvec := env.embed query
  match filingYear with
  | some y => similaritySearchByYear env.dist env.table qvec ticker y env.maxChunks
  | none => similaritySearch env.dist env.table qvec ticker env.maxChunks

/-! ### Concrete data used to exercise the definitions -/

/-- The five AAPL chunks of the worked example in the spec: similarities
[0.91, 0.87, 0.80, 0.75, 0.70], filing years [2023, 2023, 2022, 2023, 2022]. -/
def demoChunks : List SecFilingChunk :=
  [ { ticker := "AAPL", filingYear := 2023, filingType := "10-K",
      filingPeriod := "FY2023", itemCode := "item_1a", chunkIndex := 0,
      chunkText := "Risk factors excerpt.", similarity := 91 / 100 },
    { ticker := "AAPL", filingYear := 2023, filingType := "10-K",
      filingPeriod := "FY2023", itemCode := "item_7", chunkIndex := 1,
      chunkText := "MD and A excerpt.", similarity := 87 / 100 },
    { ticker := "AAPL", filingYear := 2022, filingType := "10-K",
      filingPeriod := "FY2022", itemCode := "item_7a", chunkIndex := 0,
      chunkText := "Market risk excerpt.", similarity := 80 / 100 },
    { ticker := "AAPL", filingYear := 2023, filingType := "10-K",
      filingPeriod := "FY2023", itemCode := "item_3", chunkIndex := 2,
      chunkText := "Legal proceedings excerpt.", similarity := 75 / 100 },
    { ticker := "AAPL", filingYear := 2022, filingType := "10-K",
      filingPeriod := "FY2022", itemCode := "item_1a", chunkIndex := 1,
      chunkText := "Older risk excerpt.", similarity := 70 / 100 } ]

/-- A concrete orchestrator environment: portfolio 1 ("Tech", owned by
"u1") holds AAPL and MSFT, portfolio 2 ("Empty", owned by "u1") holds
nothing; retrieval succeeds with `demoChunks` for AAPL, throws for MSFT
and finds nothing for any other ticker; generation always succeeds. -/
def demoEnv : Env :=
  { portfolios := [⟨1, "u1", "Tech"⟩, ⟨2, "u1", "Empty"⟩],
    findHoldings := fun pid => if pid == 1 then [⟨"AAPL"⟩, ⟨"MSFT"⟩] else [],
    findTicker := fun t =>
      if t == "AAPL" then some ⟨some "Apple Inc.", some "Technology"⟩ else none,
    retrieve := fun t _ =>
      if t == "AAPL" then .ok demoChunks
      else if t == "MSFT" then .error "embedding service unavailable"
      else .ok [],
    generate := fun _ _ _ _ => .ok "Generated investment commentary.",
    now := 42 }

/-- The discrete metric on vectors, a concrete stand-in for the abstract
pgvector distance operator in the executable examples (any genuine
distance function assigns equal distances to equal embeddings, which is
all the tie example below relies on). -/
def demoDist (u v : List ℚ) : ℚ :=
  if u = v then 0 else 1

/-- An AAPL row lying exactly on the demo query vector. -/
def demoRowA : ChunkRow :=
  { ticker := "AAPL", filingYear := 2023, filingType := "10-K",
    filingPeriod := "FY2023", itemCode := "item_1a", chunkIndex := 0,
    chunkText := "Apple risk factors.", embedding := [1, 0] }

/-- An AAPL row away from the demo query vector. -/
def demoRowB : ChunkRow :=
  { ticker := "AAPL", filingYear := 2022, filingType := "10-K",
    filingPeriod := "FY2022", itemCode := "item_7", chunkIndex := 1,
    chunkText := "Apple MD and A.", embedding := [0, 1] }

/-- A row belonging to another ticker. -/
def demoRowM : ChunkRow :=
  { ticker := "MSFT", filingYear := 2023, filingType := "10-K",
    filingPeriod := "FY2023", itemCode := "item_3", chunkIndex := 0,
    chunkText := "Microsoft legal.", embedding := [1, 1] }

/-- A concrete retriever environment with two AAPL rows and one MSFT row. -/
def demoRetrieverEnv : RetrieverEnv :=
  { embed := fun _ => [1, 0], dist := demoDist,
    table := [demoRowA, demoRowB, demoRowM], maxChunks := 15 }

/-- A retriever environment whose table holds two distinct AAPL rows with
identical embeddings, so both rows are at the same distance from every
query vector. -/
def demoTieEnv : RetrieverEnv :=
  { embed := fun _ => [1, 0], dist := demoDist,
    table :=
      [ { ticker := "AAPL", filingYear := 2023, filingType := "10-K",
          filingPeriod := "FY2023", itemCode := "item_1a", chunkIndex := 0,
          chunkText := "First copy.", embedding := [1, 0] },
        { ticker := "AAPL", filingYear := 2023, filingType := "10-K",
          filingPeriod := "FY2023", itemCode := "item_1a", chunkIndex := 1,
          chunkText := "Second copy.", embedding := [1, 0] } ],
    maxChunks := 15 }

/-! ### Helper lemmas -/

theorem maxCountElem_eq_or_mem (ys : List Int) (acc : Int) (l : List Int) :
    maxCountElem ys acc l = acc ∨ maxCountElem ys acc l ∈ l := by
  induction l generalizing acc with
  | nil => exact Or.inl rfl
  | cons z rest ih =>
    simp only [maxCountElem]
    split
    · rcases ih z with h | h
      · exact Or.inr (by simp [h])
      · exact Or.inr (by simp [h])
    · rcases ih acc with h | h
      · exact Or.inl h
      · exact Or.inr (by simp [h])

theorem count_le_maxCountElem_acc (ys : List Int) (acc : Int) (l : List Int) :
    ys.count acc ≤ ys.count (maxCountElem ys acc l) := by
  induction l generalizing acc with
  | nil => simp [maxCountElem]
  | cons z rest ih =>
    simp only [maxCountElem]
    split
    · next hlt => exact le_trans (le_of_lt hlt) (ih z)
    · exact ih acc

theorem count_le_maxCountElem_mem (ys : List Int) (acc x : Int) (l : List Int)
    (hx : x ∈ l) : ys.count x ≤ ys.count (maxCountElem ys acc l) := by
  induction l generalizing acc with
  | nil => cases hx
  | cons z rest ih =>
    simp only [maxCountElem]
    rcases List.mem_cons.mp hx with rfl | hx2
    · split
      · exact count_le_maxCountElem_acc ys x rest
      · next hnlt =>
        exact le_trans (not_lt.mp hnlt) (count_le_maxCountElem_acc ys acc rest)
    · split
      · exact ih z hx2
      · exact ih acc hx2

/-- When one filing year is strictly more frequent than every other year
among the chunks, the dominant-year computation picks it, whatever order
the grouping is iterated in. -/
theorem dominantFilingYear_eq_of_unique_max (chunks : List SecFilingChunk)
    (y : Int) (hmem : y ∈ chunks.map (·.filingYear))
    (hmax : ∀ y' ∈ chunks.map (·.filingYear), y' ≠ y →
      (chunks.map (·.filingYear)).count y' < (chunks.map (·.filingYear)).count y) :
    dominantFilingYear chunks = y := by
  show (match (chunks.map (·.filingYear)).dedup with
        | [] => 0
        | z :: rest => maxCountElem (chunks.map (·.filingYear)) z rest) = y
  have hd : y ∈ (chunks.map (·.filingYear)).dedup := List.mem_dedup.mpr hmem
  rcases hdd : (chunks.map (·.filingYear)).dedup with _ | ⟨z, rest⟩
  · rw [hdd] at hd; cases hd
  · rw [hdd] at hd
    rw [hdd]
    simp only
    have hres := maxCountElem_eq_or_mem (chunks.map (·.filingYear)) z rest
    have hmem2 : maxCountElem (chunks.map (·.filingYear)) z rest ∈
        chunks.map (·.filingYear) := by
      apply List.mem_dedup.mp
      rw [hdd]
      rcases hres with he | he
      · rw [he]; exact List.mem_cons_self z rest
      · exact List.mem_cons_of_mem z he
    have hge : (chunks.map (·.filingYear)).count y ≤
        (chunks.map (·.filingYear)).count
          (maxCountElem (chunks.map (·.filingYear)) z rest) := by
      rcases List.mem_cons.mp hd with rfl | hy
      · exact count_le_maxCountElem_acc _ y rest
      · exact count_le_maxCountElem_mem _ z y rest hy
    by_contra hne
    exact absurd hge (not_le.mpr (hmax _ hmem2 hne))

/-- Whatever the outcome of the remote calls, a successful per-ticker
pipeline run stamps the commentary with the ticker it was generated
for. -/
theorem generateForTicker_ok_tickerId (env : Env) (t : String)
    (c : TickerCommentary) (h : (generateForTicker env t).1 = Except.ok c) :
    c.tickerId = some t := by
  unfold generateForTicker at h
  rcases hr : env.retrieve t ANALYSIS_QUERY with e | chunks <;> rw [hr] at h
  · simp at h
  · by_cases he : chunks.isEmpty
    · simp only [he, if_true] at h
      cases h
      rfl
    · simp only [he, if_false] at h
      rcases hg : env.generate t _ _ _ with e | text <;> rw [hg] at h
      · simp at h
      · simp only at h
        cases h
        rfl

theorem commentaryForHolding_tickerId (env : Env) (t : String) :
    (commentaryForHolding env t).1.tickerId = some t := by
  unfold commentaryForHolding
  rcases hg : (generateForTicker env t).1 with msg | c
  · simp
  · simpa using generateForTicker_ok_tickerId env t c hg

theorem intercalate_go_append (s x y : String) (l : List String) :
    String.intercalate.go (x ++ y) s l = x ++ String.intercalate.go y s l := by
  induction l generalizing y with
  | nil => simp [String.intercalate.go]
  | cons a as ih =>
    simp only [String.intercalate.go]
    rw [String.append_assoc x y s, String.append_assoc x (y ++ s) a, ih]

theorem intercalate_cons_cons (s x y : String) (l : List String) :
    String.intercalate s (x :: y :: l) =
      x ++ s ++ String.intercalate s (y :: l) := by
  show String.intercalate.go ((x ++ s) ++ y) s l = _
  rw [intercalate_go_append s (x ++ s) y l]
  rfl

/-- The chunk-formatting loop produces exactly the chunks' header-plus-text
blocks joined with the delimiter. -/
theorem formatChunksAsContext_eq :
    ∀ chunks : List SecFilingChunk,
      formatChunksAsContext chunks = String.intercalate "\n\n---\n\n"
        (chunks.map fun c => chunkHeader c ++ c.chunkText)
  | [] => rfl
  | [c] => rfl
  | c :: c2 :: rest => by
    have ih := formatChunksAsContext_eq (c2 :: rest)
    show chunkHeader c ++ c.chunkText ++ "\n\n---\n\n" ++
        formatChunksAsContext (c2 :: rest) = _
    rw [ih]
    simp only [List.map_cons]
    rw [intercalate_cons_cons]

theorem searchSorted_length_le (d : List ℚ → List ℚ → ℚ) (qvec : List ℚ)
    (rows : List ChunkRow) (limit : Nat) :
    (searchSorted d qvec rows limit).length ≤ limit := by
  simp only [searchSorted, List.length_map, List.length_take]
  exact min_le_left _ _

theorem searchSorted_pairwise (d : List ℚ → List ℚ → ℚ) (qvec : List ℚ)
    (rows : List ChunkRow) (limit : Nat) :
    List.Pairwise (fun a b => b.similarity ≤ a.similarity)
      (searchSorted d qvec rows limit) := by
  haveI : IsTotal ChunkRow (fun a b => d a.embedding qvec ≤ d b.embedding qvec) :=
    ⟨fun a b => le_total _ _⟩
  haveI : IsTrans ChunkRow (fun a b => d a.embedding qvec ≤ d b.embedding qvec) :=
    ⟨fun a b c hab hbc => le_trans hab hbc⟩
  have hs : List.Sorted (fun a b => d a.embedding qvec ≤ d b.embedding qvec)
      (rows.insertionSort fun a b => d a.embedding qvec ≤ d b.embedding qvec) :=
    List.sorted_insertionSort _ _
  have ht := List.Pairwise.sublist (List.take_sublist limit _) hs
  exact ht.map (rowToChunk d qvec)
    (fun a b hab => by simpa [rowToChunk] using sub_le_sub_left hab 1)

theorem searchSorted_mem (d : List ℚ → List ℚ → ℚ) (qvec : List ℚ)
    (rows : List ChunkRow) (limit : Nat) (c : SecFilingChunk)
    (hc : c ∈ searchSorted d qvec rows limit) :
    ∃ r ∈ rows, c = rowToChunk d qvec r := by
  unfold searchSorted at hc
  rcases List.mem_map.mp hc with ⟨r, hr, rfl⟩
  exact ⟨r, (List.mem_insertionSort _).mp (List.mem_of_mem_take hr), rfl⟩

/-! ### Claim theorems -/

/-- C1: for every portfolio whose ownership check succeeds and whose
holdings list is non-empty, the `PortfolioCommentaryResponse` returned by
`generateCommentary` contains exactly one `TickerCommentary` per holding,
in the same order as the holdings list (each entry stamped with its
holding's ticker), regardless of whether the per-ticker pipeline for any
holding succeeds, returns no data, or throws. -/
theorem c1_one_commentary_per_holding (env : Env) (pid : Nat) (uid : String)
    (p : UserPortfolio)
    (hown : findByPortfolioIdAndFirebaseUid env.portfolios pid uid = some p)
    (hne : env.findHoldings pid ≠ []) :
    ∃ resp tr, generateCommentary env pid uid = Except.ok (resp, tr) ∧
      resp.commentaries.map (·.tickerId) =
        (env.findHoldings pid).map (fun h => some h.tickerId) := by
  have hb : (env.findHoldings pid).isEmpty = false := by
    simp [List.isEmpty_iff, hne]
  refine ⟨{ portfolioId := pid, portfolioName := p.portfolioName,
            commentaries := ((env.findHoldings pid).map
              fun h => commentaryForHolding env h.tickerId).map Prod.fst,
            generatedAt := some env.now },
          (((env.findHoldings pid).map
            fun h => commentaryForHolding env h.tickerId).map Prod.snd).flatten,
          ?_, ?_⟩
  · unfold generateCommentary
    rw [hown]
    simp [hb]
  · simp only [List.map_map]
    apply List.map_congr_left
    intro h _
    exact commentaryForHolding_tickerId env h.tickerId

/-- C2: for every holding whose per-ticker pipeline throws, the exception
is caught and converted into a placeholder `TickerCommentary` whose
commentary holds a human-readable error message and whose `chunksUsed` is
0; the exception never propagates out of `generateCommentary`, and the
commentaries at every other holding position are exactly what the
per-holding pipeline produces for them in isolation. -/
theorem c2_failure_isolated (env : Env) (pid : Nat) (uid : String)
    (p : UserPortfolio) (i : Nat) (h : PortfolioHolding) (msg : String)
    (hown : findByPortfolioIdAndFirebaseUid env.portfolios pid uid = some p)
    (hi : (env.findHoldings pid)[i]? = some h)
    (herr : (generateForTicker env h.tickerId).1 = Except.error msg) :
    ∃ resp tr, generateCommentary env pid uid = Except.ok (resp, tr) ∧
      resp.commentaries[i]? = some
        { tickerId := some h.tickerId, companyName := none, sector := none,
          commentary := some ("Commentary could not be generated: " ++ msg),
          filingYear := none, chunksUsed := some 0 } ∧
      ∀ j, j ≠ i → resp.commentaries[j]? =
        ((env.findHoldings pid)[j]?).map
          fun h2 => (commentaryForHolding env h2.tickerId).1 := by
  have hne : env.findHoldings pid ≠ [] := by
    intro he
    rw [he] at hi
    simp at hi
  have hb : (env.findHoldings pid).isEmpty = false := by
    simp [List.isEmpty_iff, hne]
  refine ⟨{ portfolioId := pid, portfolioName := p.portfolioName,
            commentaries := ((env.findHoldings pid).map
              fun h2 => commentaryForHolding env h2.tickerId).map Prod.fst,
            generatedAt := some env.now },
          (((env.findHoldings pid).map
            fun h2 => commentaryForHolding env h2.tickerId).map Prod.snd).flatten,
          ?_, ?_, ?_⟩
  · unfold generateCommentary
    rw [hown]
    simp [hb]
  · simp only [List.map_map, List.getElem?_map, hi, Option.map_some',
      Function.comp]
    unfold commentaryForHolding
    rw [herr]
  · intro j _
    simp only [List.map_map, List.getElem?_map]
    rfl

/-- C3: a portfolio id owned by nobody and a portfolio id owned by a
different user produce the same observable outcome from
`generateCommentary`: the identical "Portfolio not found" error, so the
caller cannot distinguish nonexistence from unauthorized access. -/
theorem c3_not_found_indistinguishable (env : Env) (pid pid2 : Nat)
    (uid : String)
    (hno : ∀ p ∈ env.portfolios, p.portfolioId ≠ pid)
    (hother : ∀ p ∈ env.portfolios, p.portfolioId = pid2 → p.firebaseUid ≠ uid) :
    generateCommentary env pid uid = Except.error "Portfolio not found" ∧
    generateCommentary env pid2 uid = Except.error "Portfolio not found" := by
  constructor
  · have hfind : findByPortfolioIdAndFirebaseUid env.portfolios pid uid = none := by
      apply List.find?_eq_none.mpr
      intro x hx
      simp only [Bool.and_eq_true, beq_iff_eq, not_and]
      intro hid
      exact absurd hid (hno x hx)
    unfold generateCommentary
    rw [hfind]
  · have hfind : findByPortfolioIdAndFirebaseUid env.portfolios pid2 uid = none := by
      apply List.find?_eq_none.mpr
      intro x hx
      simp only [Bool.and_eq_true, beq_iff_eq, not_and]
      exact hother x hx
    unfold generateCommentary
    rw [hfind]

/-- C4: every chunk returned by a retrieval call has its ticker equal to
the requested ticker, and its filing year equal to the requested year
whenever one was supplied; no chunk of another ticker is ever returned. -/
theorem c4_retrieval_scoped (env : RetrieverEnv) (tk q : String)
    (oy : Option Int) (c : SecFilingChunk)
    (hc : c ∈ retrieverRun env tk q oy) :
    c.ticker = tk ∧ ∀ yr, oy = some yr → c.filingYear = yr := by
  cases oy with
  | none =>
    simp only [retrieverRun, similaritySearch] at hc
    rcases searchSorted_mem _ _ _ _ c hc with ⟨r, hr, rfl⟩
    have hp := (List.mem_filter.mp hr).2
    simp only [beq_iff_eq] at hp
    exact ⟨hp, fun yr hyr => by cases hyr⟩
  | some y =>
    simp only [retrieverRun, similaritySearchByYear] at hc
    rcases searchSorted_mem _ _ _ _ c hc with ⟨r, hr, rfl⟩
    have hp := (List.mem_filter.mp hr).2
    simp only [Bool.and_eq_true, beq_iff_eq] at hp
    refine ⟨hp.1, fun yr hyr => ?_⟩
    cases hyr
    exact hp.2

/-- Counterexample to C5 as stated: with two chunks whose embeddings are
identical (hence at the same distance from any query vector), the returned
list is not ordered by strictly descending similarity — the two
similarities are equal. -/
theorem c5_counterexample :
    ¬ List.Chain' (fun a b : SecFilingChunk => b.similarity < a.similarity)
      (retrieverRun demoTieEnv "AAPL" ANALYSIS_QUERY none) := by
  intro hch
  have hev : retrieverRun demoTieEnv "AAPL" ANALYSIS_QUERY none =
      demoTieEnv.table.map (rowToChunk demoDist [1, 0]) := rfl
  rw [hev] at hch
  simp [demoTieEnv, rowToChunk, List.chain'_cons, lt_self_iff_false] at hch

/-- C5 (amended): every retrieval call returns at most `maxChunks` chunks,
each returned chunk's similarity equals `1 -` the distance between its
row's embedding and the query vector, and the returned list is ordered by
non-increasing (not necessarily strictly decreasing) similarity. -/
theorem c5_limit_and_order (env : RetrieverEnv) (tk q : String)
    (oy : Option Int) :
    (retrieverRun env tk q oy).length ≤ env.maxChunks ∧
    List.Pairwise (fun a b => b.similarity ≤ a.similarity)
      (retrieverRun env tk q oy) ∧
    ∀ c ∈ retrieverRun env tk q oy, ∃ r ∈ env.table,
      c.ticker = r.ticker ∧
      c.similarity = 1 - env.dist r.embedding (env.embed q) := by
  cases oy with
  | none =>
    simp only [retrieverRun, similaritySearch]
    refine ⟨searchSorted_length_le _ _ _ _, searchSorted_pairwise _ _ _ _, ?_⟩
    intro c hc
    rcases searchSorted_mem _ _ _ _ c hc with ⟨r, hr, rfl⟩
    exact ⟨r, (List.mem_filter.mp hr).1, rfl, rfl⟩
  | some y =>
    simp only [retrieverRun, similaritySearchByYear]
    refine ⟨searchSorted_length_le _ _ _ _, searchSorted_pairwise _ _ _ _, ?_⟩
    intro c hc
    rcases searchSorted_mem _ _ _ _ c hc with ⟨r, hr, rfl⟩
    exact ⟨r, (List.mem_filter.mp hr).1, rfl, rfl⟩

/-- C6: a ticker whose retrieval returns an empty chunk list is no
failure: the pipeline returns a commentary stating that no filing data is
available with `chunksUsed = 0`, and makes no generation call at all. -/
theorem c6_no_data_no_generation (env : Env) (t : String)
    (hret : env.retrieve t ANALYSIS_QUERY = Except.ok []) :
    ∃ tc, (generateForTicker env t).1 = Except.ok tc ∧
      tc.commentary = some "No SEC filing data available for this ticker." ∧
      tc.chunksUsed = some 0 ∧
      ∀ s, Effect.generateCall s ∉ (generateForTicker env t).2 := by
  have hg : generateForTicker env t =
      (Except.ok
        { tickerId := some t,
          companyName := some (match env.findTicker t with
            | some dim => dim.companyName.getD t
            | none => t),
          sector := some (match env.findTicker t with
            | some dim => dim.sector.getD "Unknown"
            | none => "Unknown"),
          commentary := some "No SEC filing data available for this ticker.",
          filingYear := none, chunksUsed := some 0 },
       [Effect.retrieveCall t]) := by
    unfold generateForTicker
    rw [hret]
    rfl
  refine ⟨{ tickerId := some t,
            companyName := some (match env.findTicker t with
              | some dim => dim.companyName.getD t
              | none => t),
            sector := some (match env.findTicker t with
              | some dim => dim.sector.getD "Unknown"
              | none => "Unknown"),
            commentary := some "No SEC filing data available for this ticker.",
            filingYear := none, chunksUsed := some 0 }, ?_, rfl, rfl, ?_⟩
  · rw [hg]
  · rw [hg]
    intro s
    simp

/-- C7: a portfolio that passes the ownership check and has zero holdings
yields an immediate response with an empty commentary list and a populated
timestamp, and a run that makes no retrieval or generation calls. -/
theorem c7_empty_portfolio (env : Env) (pid : Nat) (uid : String)
    (p : UserPortfolio)
    (hown : findByPortfolioIdAndFirebaseUid env.portfolios pid uid = some p)
    (hempty : env.findHoldings pid = []) :
    generateCommentary env pid uid = Except.ok
      ({ portfolioId := pid, portfolioName := p.portfolioName,
         commentaries := [], generatedAt := some env.now }, []) := by
  unfold generateCommentary
  rw [hown]
  simp [hempty]

/-- C8: for a ticker whose retrieval returns a non-empty chunk list and
whose pipeline succeeds, the commentary's filing year is the uniquely most
frequent filing year among the retrieved chunks and `chunksUsed` is the
number of retrieved chunks. -/
theorem c8_dominant_year_and_count (env : Env) (t : String)
    (chunks : List SecFilingChunk) (y : Int) (tc : TickerCommentary)
    (hret : env.retrieve t ANALYSIS_QUERY = Except.ok chunks)
    (hmem : y ∈ chunks.map (·.filingYear))
    (hmax : ∀ y' ∈ chunks.map (·.filingYear), y' ≠ y →
      (chunks.map (·.filingYear)).count y' < (chunks.map (·.filingYear)).count y)
    (hok : (generateForTicker env t).1 = Except.ok tc) :
    tc.filingYear = some y ∧ tc.chunksUsed = some chunks.length := by
  have hne : chunks ≠ [] := by
    intro he
    rw [he] at hmem
    simp at hmem
  have hb : chunks.isEmpty = false := by
    simp [List.isEmpty_iff, hne]
  unfold generateForTicker at hok
  rw [hret] at hok
  simp only [hb, Bool.false_eq_true, if_false] at hok
  split at hok
  · simp at hok
  · injection hok with h2
    rw [← h2]
    exact ⟨by rw [dominantFilingYear_eq_of_unique_max chunks y hmem hmax], rfl⟩

/-- C9: for a non-empty chunk list, the assembled context is the chunks'
texts in retrieval order, each prefixed with its provenance header
(filing type, year, period, human-readable section label), joined with
the explicit delimiter; a section code outside the lookup table passes
through verbatim. -/
theorem c9_context_assembly (chunks : List SecFilingChunk)
    (_hne : chunks ≠ []) :
    formatChunksAsContext chunks = String.intercalate "\n\n---\n\n"
      (chunks.map fun c => chunkHeader c ++ c.chunkText) ∧
    ∀ code, code ∉ ["item_1a", "item_3", "item_7", "item_7a"] →
      humanReadableItem code = code := by
  refine ⟨formatChunksAsContext_eq chunks, ?_⟩
  intro code hcode
  simp only [List.mem_cons, List.not_mem_nil, or_false, not_or] at hcode
  obtain ⟨h1, h3, h7, h7a⟩ := hcode
  simp [humanReadableItem, h1, h3, h7, h7a]

/-- C10: the placeholder commentary built for a holding whose pipeline
threw carries only the ticker id, the error message and `chunksUsed = 0`;
its `companyName`, `sector` and `filingYear` are null and therefore absent
from the serialized JSON (`NON_NULL` inclusion), whereas the no-data
placeholder does carry a company name and sector. -/
theorem c10_error_placeholder_minimal (env env2 : Env) (t t2 : String)
    (msg : String)
    (herr : (generateForTicker env t).1 = Except.error msg)
    (hnodata : env2.retrieve t2 ANALYSIS_QUERY = Except.ok []) :
    (commentaryForHolding env t).1 =
      { tickerId := some t, companyName := none, sector := none,
        commentary := some ("Commentary could not be generated: " ++ msg),
        filingYear := none, chunksUsed := some 0 } ∧
    "companyName" ∉ serializedKeys (commentaryForHolding env t).1 ∧
    "sector" ∉ serializedKeys (commentaryForHolding env t).1 ∧
    "filingYear" ∉ serializedKeys (commentaryForHolding env t).1 ∧
    (commentaryForHolding env2 t2).1.companyName.isSome = true ∧
    (commentaryForHolding env2 t2).1.sector.isSome = true := by
  have h1 : (commentaryForHolding env t).1 =
      { tickerId := some t, companyName := none, sector := none,
        commentary := some ("Commentary could not be generated: " ++ msg),
        filingYear := none, chunksUsed := some 0 } := by
    unfold commentaryForHolding
    rw [herr]
  have h2 : (generateForTicker env2 t2).1 = Except.ok
      { tickerId := some t2,
        companyName := some (match env2.findTicker t2 with
          | some dim => dim.companyName.getD t2
          | none => t2),
        sector := some (match env2.findTicker t2 with
          | some dim => dim.sector.getD "Unknown"
          | none => "Unknown"),
        commentary := some "No SEC filing data available for this ticker.",
        filingYear := none, chunksUsed := some 0 } := by
    unfold generateForTicker
    rw [hnodata]
    rfl
  have h3 : (commentaryForHolding env2 t2).1.companyName.isSome = true ∧
      (commentaryForHolding env2 t2).1.sector.isSome = true := by
    unfold commentaryForHolding
    rw [h2]
    exact ⟨rfl, rfl⟩
  refine ⟨h1, ?_, ?_, ?_, h3.1, h3.2⟩ <;>
    rw [h1] <;> simp [serializedKeys]

/-! ### Witnesses: each hypothesis-bearing claim theorem applied at a
concrete input -/

/-- C1 at `demoEnv`, portfolio 1, owner "u1". -/
theorem c1_witness :
    findByPortfolioIdAndFirebaseUid demoEnv.portfolios 1 "u1" =
      some ⟨1, "u1", "Tech"⟩ ∧
    demoEnv.findHoldings 1 ≠ [] ∧
    (∃ resp tr, generateCommentary demoEnv 1 "u1" = Except.ok (resp, tr) ∧
      resp.commentaries.map (·.tickerId) =
        (demoEnv.findHoldings 1).map (fun h => some h.tickerId)) :=
  ⟨by decide, by decide,
   c1_one_commentary_per_holding demoEnv 1 "u1" ⟨1, "u1", "Tech"⟩
     (by decide) (by decide)⟩

/-- C2 at `demoEnv`: the MSFT holding (position 1) throws during
retrieval, AAPL (position 0) is unaffected. -/
theorem c2_witness :
    (demoEnv.findHoldings 1)[1]? = some ⟨"MSFT"⟩ ∧
    (generateForTicker demoEnv "MSFT").1 =
      Except.error "embedding service unavailable" ∧
    (∃ resp tr, generateCommentary demoEnv 1 "u1" = Except.ok (resp, tr) ∧
      resp.commentaries[1]? = some
        { tickerId := some "MSFT", companyName := none, sector := none,
          commentary := some
            ("Commentary could not be generated: " ++ "embedding service unavailable"),
          filingYear := none, chunksUsed := some 0 } ∧
      ∀ j, j ≠ 1 → resp.commentaries[j]? =
        ((demoEnv.findHoldings 1)[j]?).map
          fun h2 => (commentaryForHolding demoEnv h2.tickerId).1) :=
  ⟨by decide, rfl,
   c2_failure_isolated demoEnv 1 "u1" ⟨1, "u1", "Tech"⟩ 1 ⟨"MSFT"⟩
     "embedding service unavailable" (by decide) (by decide) rfl⟩

/-- C3 at `demoEnv`: portfolio id 99 exists for nobody, portfolio 1 is
owned by "u1", and user "intruder" requests both. -/
theorem c3_witness :
    (∀ p ∈ demoEnv.portfolios, p.portfolioId ≠ 99) ∧
    (∀ p ∈ demoEnv.portfolios, p.portfolioId = 1 → p.firebaseUid ≠ "intruder") ∧
    generateCommentary demoEnv 99 "intruder" =
      Except.error "Portfolio not found" ∧
    generateCommentary demoEnv 1 "intruder" =
      Except.error "Portfolio not found" :=
  ⟨by decide, by decide,
   (c3_not_found_indistinguishable demoEnv 99 1 "intruder"
      (by decide) (by decide)).1,
   (c3_not_found_indistinguishable demoEnv 99 1 "intruder"
      (by decide) (by decide)).2⟩

/-- C4 at `demoRetrieverEnv`: the best-matching AAPL chunk is returned and
is scoped to AAPL. -/
theorem c4_witness :
    rowToChunk demoDist [1, 0] demoRowA ∈
      retrieverRun demoRetrieverEnv "AAPL" "query" none ∧
    (rowToChunk demoDist [1, 0] demoRowA).ticker = "AAPL" ∧
    ∀ yr, (none : Option Int) = some yr →
      (rowToChunk demoDist [1, 0] demoRowA).filingYear = yr := by
  have hev : retrieverRun demoRetrieverEnv "AAPL" "query" none =
      [rowToChunk demoDist [1, 0] demoRowA,
       rowToChunk demoDist [1, 0] demoRowB] := rfl
  have hmem : rowToChunk demoDist [1, 0] demoRowA ∈
      retrieverRun demoRetrieverEnv "AAPL" "query" none := by
    rw [hev]
    exact List.mem_cons_self _ _
  have hc := c4_retrieval_scoped demoRetrieverEnv "AAPL" "query" none
    (rowToChunk demoDist [1, 0] demoRowA) hmem
  exact ⟨hmem, hc.1, hc.2⟩

/-- C6 at `demoEnv` with ticker "NVDA", for which retrieval finds no
chunks. -/
theorem c6_witness :
    demoEnv.retrieve "NVDA" ANALYSIS_QUERY = Except.ok [] ∧
    (∃ tc, (generateForTicker demoEnv "NVDA").1 = Except.ok tc ∧
      tc.commentary = some "No SEC filing data available for this ticker." ∧
      tc.chunksUsed = some 0 ∧
      ∀ s, Effect.generateCall s ∉ (generateForTicker demoEnv "NVDA").2) :=
  ⟨rfl, c6_no_data_no_generation demoEnv "NVDA" rfl⟩

/-- C7 at `demoEnv`, portfolio 2 ("Empty") with no holdings. -/
theorem c7_witness :
    findByPortfolioIdAndFirebaseUid demoEnv.portfolios 2 "u1" =
      some ⟨2, "u1", "Empty"⟩ ∧
    demoEnv.findHoldings 2 = [] ∧
    generateCommentary demoEnv 2 "u1" = Except.ok
      ({ portfolioId := 2, portfolioName := "Empty",
         commentaries := [], generatedAt := some demoEnv.now }, []) :=
  ⟨by decide, by decide,
   c7_empty_portfolio demoEnv 2 "u1" ⟨2, "u1", "Empty"⟩ (by decide) (by decide)⟩

/-- C8 at `demoEnv` with ticker "AAPL": the five retrieved chunks span
filing years [2023, 2023, 2022, 2023, 2022], 2023 is uniquely most
frequent, and the commentary reports year 2023 over 5 chunks. -/
theorem c8_witness :
    demoEnv.retrieve "AAPL" ANALYSIS_QUERY = Except.ok demoChunks ∧
    (2023 : Int) ∈ demoChunks.map (·.filingYear) ∧
    (∀ y' ∈ demoChunks.map (·.filingYear), y' ≠ 2023 →
      (demoChunks.map (·.filingYear)).count y' <
        (demoChunks.map (·.filingYear)).count 2023) ∧
    (generateForTicker demoEnv "AAPL").1 = Except.ok
      { tickerId := some "AAPL", companyName := some "Apple Inc.",
        sector := some "Technology",
        commentary := some "Generated investment commentary.",
        filingYear := some 2023, chunksUsed := some 5 } ∧
    (some (2023 : Int) = some (2023 : Int) ∧
      some (5 : Nat) = some demoChunks.length) :=
  ⟨rfl, by decide, by decide, rfl,
   c8_dominant_year_and_count demoEnv "AAPL" demoChunks 2023
     { tickerId := some "AAPL", companyName := some "Apple Inc.",
       sector := some "Technology",
       commentary := some "Generated investment commentary.",
       filingYear := some 2023, chunksUsed := some 5 }
     rfl (by decide) (by decide) rfl⟩

/-- C9 at the five example chunks. -/
theorem c9_witness :
    demoChunks ≠ [] ∧
    formatChunksAsContext demoChunks = String.intercalate "\n\n---\n\n"
      (demoChunks.map fun c => chunkHeader c ++ c.chunkText) ∧
    ∀ code, code ∉ ["item_1a", "item_3", "item_7", "item_7a"] →
      humanReadableItem code = code :=
  ⟨by decide, (c9_context_assembly demoChunks (by decide)).1,
   (c9_context_assembly demoChunks (by decide)).2⟩

/-- C10 at `demoEnv`: the error placeholder for MSFT against the no-data
commentary for NVDA. -/
theorem c10_witness :
    (generateForTicker demoEnv "MSFT").1 =
      Except.error "embedding service unavailable" ∧
    demoEnv.retrieve "NVDA" ANALYSIS_QUERY = Except.ok [] ∧
    ((commentaryForHolding demoEnv "MSFT").1 =
      { tickerId := some "MSFT", companyName := none, sector := none,
        commentary := some
          ("Commentary could not be generated: " ++ "embedding service unavailable"),
        filingYear := none, chunksUsed := some 0 } ∧
    "companyName" ∉ serializedKeys (commentaryForHolding demoEnv "MSFT").1 ∧
    "sector" ∉ serializedKeys (commentaryForHolding demoEnv "MSFT").1 ∧
    "filingYear" ∉ serializedKeys (commentaryForHolding demoEnv "MSFT").1 ∧
    (commentaryForHolding demoEnv "NVDA").1.companyName.isSome = true ∧
    (commentaryForHolding demoEnv "NVDA").1.sector.isSome = true) :=
  ⟨rfl, rfl,
   c10_error_placeholder_minimal demoEnv demoEnv "MSFT" "NVDA"
     "embedding service unavailable" rfl rfl⟩

end FinStream
